/-
Verification of the WEB-APK build-pipeline simulator.

Shallow embedding of the repository sources:
  - the type declarations (WrapperType, InputType, BuildConfiguration,
    LogEntry, AnalysisResult),
  - src/services/geminiService.ts (analyzeWebInput, generateBuildReport),
  - src/App.tsx (addLog, startBuild, handleAnalysis, the workflow step
    transitions of the three render functions).

External effects (the generative-AI HTTP call, Math.random, Date, the id
generator) are modelled as explicit oracle parameters; the adapter call
outcome is an `Except` value whose `ok` payload carries the optional
response text, matching the JS promise that either rejects or resolves to
a response with an optional `text` field.
-/
import Mathlib

namespace WebApk

/-! ## Data model (types declarations) -/

/-- The `WrapperType` enum. -/
inductive WrapperType where
  | twa
  | capacitor
  | cordova
deriving DecidableEq

/-- The string value each `WrapperType` enum member carries in the source. -/
def wrapperTypeStr : WrapperType → String
  | .twa => "Trusted Web Activity (Recommended)"
  | .capacitor => "Capacitor (Native Runtime)"
  | .cordova => "Cordova (Legacy)"

/-- The `InputType` enum. -/
inductive InputType where
  | url
  | folder
  | file
  | archive
deriving DecidableEq

/-- The `BuildConfiguration` record. -/
structure BuildConfiguration where
  inputType : InputType
  inputValue : String
  wrapper : WrapperType
  packageName : String
  appName : String
  versionName : String
  versionCode : Nat
  primaryColor : String
  signingEnabled : Bool
  keystorePath : Option String := none
  targetSdk : Nat
deriving DecidableEq

/-- The four log levels of `LogEntry.level`. -/
inductive LogLevel where
  | info
  | warn
  | error
  | success
deriving DecidableEq

/-- A `LogEntry`: `id` and `timestamp` are opaque environment-supplied
strings (`Math.random` / `Date.toLocaleTimeString` in the source). -/
structure LogEntry where
  id : String
  timestamp : String
  level : LogLevel
  message : String
deriving DecidableEq

/-- The `AnalysisResult` record. -/
structure AnalysisResult where
  suggestedPackage : String
  detectedName : String
  isPwa : Bool
  permissions : List String
  securityWarnings : List String
deriving DecidableEq

/-! ## geminiService.ts -/

/-- The fallback `AnalysisResult` returned by `analyzeWebInput` when the
adapter call fails, taken verbatim from the catch branch of the source. -/
def fallbackAnalysis : AnalysisResult :=
  { suggestedPackage := "com.example.webapp"
    detectedName := "My Web App"
    isPwa := false
    permissions := ["android.permission.INTERNET"]
    securityWarnings := [] }

/-- `analyzeWebInput`: the adapter call either rejects (`.error e`, the JS
exception message) or resolves with an optional `text` field.  A truthy
`response.text` is parsed (`JSON.parse` may itself throw, modelled by the
`parse` oracle); an absent or empty text throws `Empty response from AI`.
Every thrown error lands in the catch branch, which returns
`fallbackAnalysis`. -/
def analyzeWebInput (response : Except String (Option String))
    (parse : String → Except String AnalysisResult) : AnalysisResult :=
  match response with
  | .error _ => fallbackAnalysis
  | .ok none => fallbackAnalysis
  | .ok (some t) =>
    if t = "" then fallbackAnalysis
    else
      match parse t with
      | .error _ => fallbackAnalysis
      | .ok r => r

/-- `logs.slice(-20).join("\n")`: the trailing window of at most 20
messages, all of them when there are fewer. -/
def logSnippet (msgs : List String) : String :=
  String.intercalate "\n" (msgs.drop (msgs.length - 20))

/-- `generateBuildReport` (the part after building the prompt): on a
rejected call the catch branch returns the generic fallback; on a resolved
call with falsy (absent or empty) `text` the `||` substitutes the
report-unavailable fallback; otherwise the text is returned. -/
def generateBuildReport (response : Except String (Option String)) : String :=
  match response with
  | .error _ => "Build completed. See raw logs for details."
  | .ok none => "Build completed successfully (Report unavailable)."
  | .ok (some t) =>
    if t = "" then "Build completed successfully (Report unavailable)."
    else t

/-! ## App.tsx: output-filename derivation -/

/-- The character class of the JS regex `\s` (ECMAScript WhiteSpace and
LineTerminator). -/
def isJsWhitespace (c : Char) : Bool :=
  c = ' ' || ('\t' ≤ c && c ≤ '\u000D') || c = '\u00A0' || c = '\u1680' ||
  ('\u2000' ≤ c && c ≤ '\u200A') || c = '\u2028' || c = '\u2029' ||
  c = '\u202F' || c = '\u205F' || c = '\u3000' || c = '\uFEFF'

/-- `appName.replace(/\s+/g, '_')` over the character list: each maximal
run of whitespace characters becomes a single underscore; the flag records
whether the previous character belonged to a whitespace run already
accounted for. -/
def replaceWsRunsAux : Bool → List Char → List Char
  | _, [] => []
  | inRun, c :: rest =>
    if isJsWhitespace c then
      if inRun then replaceWsRunsAux true rest
      else '_' :: replaceWsRunsAux true rest
    else c :: replaceWsRunsAux false rest

/-- `config.appName.replace(/\s+/g, '_')`. -/
def sanitizeAppName (s : String) : String :=
  String.mk (replaceWsRunsAux false s.data)

/-- The output-path message of the terminal success sequence. -/
def outputMessage (cfg : BuildConfiguration) : String :=
  "Output: dist/" ++ sanitizeAppName cfg.appName ++ "-release.apk"

/-! ## App.tsx: addLog and the build run

The `id` and `timestamp` of each appended entry come from an environment
oracle `env : Nat → String × String`, indexed by the number of entries
appended so far; the per-tick `Math.random() > 0.8` draw comes from a
warning oracle `warn : Nat → Bool`, indexed by the step cursor `i`. -/

/-- An entry as built inside `addLog`. -/
def mkEntry (env : Nat → String × String) (n : Nat) (level : LogLevel)
    (message : String) : LogEntry :=
  { id := (env n).1, timestamp := (env n).2, level := level, message := message }

/-- `addLog(message, level)`: appends one entry; the `level` parameter
defaults to `info` exactly as in the source signature
`(message, level = 'info')`. -/
def addLog (env : Nat → String × String) (n : Nat) (logs : List LogEntry)
    (message : String) (level : LogLevel := LogLevel.info) : List LogEntry :=
  logs ++ [mkEntry env n level message]

/-- The fixed cautionary message injected with probability ~0.2 per tick. -/
def cleartextWarning : String :=
  "Warning: Uses cleartext traffic (HTTP) - ensure security config allows this."

/-- The messages of the three header entries appended before the
simulation loop starts. -/
def headerMessages (cfg : BuildConfiguration) : List String :=
  ["Starting build pipeline for " ++ cfg.packageName ++ "...",
   "Wrapper: " ++ wrapperTypeStr cfg.wrapper,
   "Target SDK: " ++ toString cfg.targetSdk]

/-- The three header `addLog` calls of `startBuild`, level left to its
default. -/
def buildHeaders (env : Nat → String × String) (cfg : BuildConfiguration) :
    List LogEntry :=
  addLog env 2
    (addLog env 1
      (addLog env 0 [] ("Starting build pipeline for " ++ cfg.packageName ++ "..."))
      ("Wrapper: " ++ wrapperTypeStr cfg.wrapper))
    ("Target SDK: " ++ toString cfg.targetSdk)

/-- The entries appended by the `setInterval` simulation loop, run to
completion: while steps remain, each tick optionally appends the warning
entry (one `Math.random` draw per tick, oracle `warn` at the cursor `i`)
and then the next staged step at the default `info` level; once the list
is exhausted the tick clears the interval and appends the two terminal
`success` entries.  `n` counts entries appended so far (the `env` index). -/
def runTicks (env : Nat → String × String) (warn : Nat → Bool)
    (cfg : BuildConfiguration) : Nat → Nat → List String → List LogEntry
  | n, _, [] =>
    [mkEntry env n LogLevel.success "Build Successful!",
     mkEntry env (n + 1) LogLevel.success (outputMessage cfg)]
  | n, i, s :: rest =>
    if warn i then
      mkEntry env n LogLevel.warn cleartextWarning ::
      mkEntry env (n + 1) LogLevel.info s ::
      runTicks env warn cfg (n + 2) (i + 1) rest
    else
      mkEntry env n LogLevel.info s :: runTicks env warn cfg (n + 1) (i + 1) rest

/-- The complete Log Stream of one build run driven to completion: the
stream is first reset (`setLogs([])`), the three headers are appended,
then the simulation loop runs with cursor `i = 0`. -/
def buildRun (env : Nat → String × String) (warn : Nat → Bool)
    (cfg : BuildConfiguration) (steps : List String) : List LogEntry :=
  buildHeaders env cfg ++ runTicks env warn cfg 3 0 steps

/-- What a completed `startBuild` produces: the final Log Stream, and the
argument passed to `generateBuildReport`.  The source maps over `logs` —
the state captured by the `useCallback` closure when the callback was
created, NOT the stream the run just built — and `generateBuildReport`
takes the trailing 20 of those messages.  `staleLogs` is that captured
list. -/
structure BuildRunResult where
  finalLogs : List LogEntry
  reportRequest : String
deriving DecidableEq

/-- `startBuild` run to completion (single run, no concurrent interval). -/
def startBuild (env : Nat → String × String) (warn : Nat → Bool)
    (cfg : BuildConfiguration) (steps : List String)
    (staleLogs : List LogEntry) : BuildRunResult :=
  { finalLogs := buildRun env warn cfg steps
    reportRequest := logSnippet (staleLogs.map LogEntry.message) }

/-! ## App.tsx: the multi-run event machine

`startBuild` installs a fresh `setInterval` without clearing any interval
installed by an earlier call, so several interval closures can be live at
once, each with its own captured configuration, step list and cursor.  The
machine below replays an explicit event schedule: `startRun` models a
click on Initialize Build (reset the stream, append the headers, register
a new live interval), `analyze` models the `setLogs([])` of
`handleAnalysis`, and `tick rid w` models one firing of run `rid`'s
interval with warning draw `w`.  An interval is cleared (`active := false`)
only by its own terminal tick. -/

/-- The per-closure state of one `startBuild` invocation. -/
structure RunState where
  cfg : BuildConfiguration
  steps : List String
  i : Nat
  active : Bool
deriving DecidableEq

/-- The shared application state the claims speak about. -/
structure AppState where
  logs : List LogEntry
  runs : List RunState
deriving DecidableEq

/-- The operations that touch the Log Stream. -/
inductive Event where
  | analyze
  | startRun (cfg : BuildConfiguration) (steps : List String)
  | tick (rid : Nat) (warnDraw : Bool)

/-- One event applied to the state.  `startRun` resets the stream and
leaves every existing interval live (the source never calls
`clearInterval` on a prior run); a `tick` of a cleared or unknown interval
is a no-op; a terminal tick appends the two success entries and clears its
own interval; a normal tick appends the optional warning and the next
step, at `addLog`'s default `info` level, and advances the cursor. -/
def applyEvent (env : Nat → String × String) (s : AppState) :
    Event → AppState
  | .analyze => { s with logs := [] }
  | .startRun cfg steps =>
    { logs := buildHeaders env cfg
      runs := s.runs ++ [{ cfg := cfg, steps := steps, i := 0, active := true }] }
  | .tick rid w =>
    match s.runs[rid]? with
    | none => s
    | some r =>
      if r.active then
        if r.steps.length ≤ r.i then
          { logs := s.logs ++
              [mkEntry env s.logs.length LogLevel.success "Build Successful!",
               mkEntry env (s.logs.length + 1) LogLevel.success (outputMessage r.cfg)]
            runs := s.runs.set rid { r with active := false } }
        else
          { logs := s.logs ++
              (if w then [mkEntry env s.logs.length LogLevel.warn cleartextWarning] else []) ++
              [mkEntry env (s.logs.length + if w then 1 else 0) LogLevel.info
                (r.steps[r.i]?.getD "")]
            runs := s.runs.set rid { r with i := r.i + 1 } }
      else s

/-- Replay a schedule of events from a state. -/
def execEvents (env : Nat → String × String) (s : AppState)
    (events : List Event) : AppState :=
  events.foldl (applyEvent env) s

/-! ## App.tsx: workflow state machine

The three-step wizard.  Each action is only reachable from the view that
renders its button: Analyze & Configure in step 1 (fires `setStep(2)` once
the analysis promise resolves), Back and Initialize Build in step 2
(`setStep(1)` / `setStep(3)`), Configure in step 3, rendered only while
`isBuilding` is false (`setStep(2)`).  Anywhere else the action has no
handler and the step is unchanged. -/

/-- The `step` state values 1, 2, 3. -/
inductive WorkflowStep where
  | source
  | configuration
  | buildOutput
deriving DecidableEq

/-- The user/system actions that can change the step. -/
inductive WAction where
  | analysisResolved
  | back
  | startBuildAction
  | configure
deriving DecidableEq

/-- The step transition function; `building` is the `isBuilding` flag. -/
def workflowTransition (s : WorkflowStep) (a : WAction) (building : Bool) :
    WorkflowStep :=
  match s, a with
  | .source, .analysisResolved => .configuration
  | .configuration, .back => .source
  | .configuration, .startBuildAction => .buildOutput
  | .buildOutput, .configure => if building then .buildOutput else .configuration
  | _, _ => s

/-! ## Spec-side comparison definitions

These two definitions follow the wording of the specification (not the
source); they exist only to be compared against the source-derived
definitions above. -/

/-- The fallback object exactly as the spec words it
(`permissions: ["INTERNET"]`), for comparison with the source's
`fallbackAnalysis`. -/
def claimedFallbackAnalysis : AnalysisResult :=
  { suggestedPackage := "com.example.webapp"
    detectedName := "My Web App"
    isPwa := false
    permissions := ["INTERNET"]
    securityWarnings := [] }

/-- The character class the spec says survives filename derivation:
alphanumeric, space, dot, dash, underscore. -/
def isClaimAllowed (c : Char) : Bool :=
  c.isAlphanum || c = ' ' || c = '.' || c = '-' || c = '_'

/-- The filename derivation exactly as the spec words it: every symbol
outside `isClaimAllowed` — and every run of whitespace — becomes a single
underscore.  For comparison with the source's `replaceWsRunsAux`. -/
def claimedSanitizeAux : Bool → List Char → List Char
  | _, [] => []
  | inRun, c :: rest =>
    if isJsWhitespace c then
      if inRun then claimedSanitizeAux true rest
      else '_' :: claimedSanitizeAux true rest
    else if isClaimAllowed c then c :: claimedSanitizeAux false rest
    else '_' :: claimedSanitizeAux false rest

/-- String form of `claimedSanitizeAux`. -/
def claimedSanitize (s : String) : String :=
  String.mk (claimedSanitizeAux false s.data)

/-! ## Concrete fixtures -/

/-- Environment oracle producing empty ids and timestamps. -/
def env0 : Nat → String × String := fun _ => ("", "")

/-- Warning oracle that never fires (every draw ≤ 0.8). -/
def warnNever : Nat → Bool := fun _ => false

/-- A concrete configuration. -/
def cfg0 : BuildConfiguration :=
  { inputType := InputType.url
    inputValue := "https://myapp.com"
    wrapper := WrapperType.twa
    packageName := "com.example.app"
    appName := "My App"
    versionName := "1.0.0"
    versionCode := 1
    primaryColor := "#3DDC84"
    signingEnabled := false
    targetSdk := 34 }

/-- The configuration of a first build run. -/
def cfgRun1 : BuildConfiguration :=
  { cfg0 with packageName := "com.example.one", appName := "One" }

/-- The configuration of a second build run started while the first is
still ticking. -/
def cfgRun2 : BuildConfiguration :=
  { cfg0 with packageName := "com.example.two", appName := "Two" }

/-- The staged step list of the first run in the interleaving scenario. -/
def run1Steps : List String := ["run1 step A", "run1 step B"]

/-- Scenario: start run 1, let its interval fire once, start run 2 while
run 1 still has a pending interval, then run 1's interval fires again. -/
def interleavingSchedule : List Event :=
  [Event.startRun cfgRun1 run1Steps,
   Event.tick 0 false,
   Event.startRun cfgRun2 ["run2 step A"],
   Event.tick 0 false]

/-- A state holding one completed (interval-cleared) run. -/
def idleState : AppState :=
  { logs := [], runs := [{ cfg := cfg0, steps := [], i := 0, active := false }] }

/-- A state whose Log Stream is nonempty. -/
def exampleState : AppState :=
  { logs := [mkEntry env0 0 LogLevel.info "old entry"], runs := [] }

/-! ## Helper lemmas -/

/-- Boolean level test used to filter the Log Stream. -/
def levelIs (lvl : LogLevel) (e : LogEntry) : Bool := decide (e.level = lvl)

lemma filter_info_buildHeaders (env : Nat → String × String)
    (cfg : BuildConfiguration) :
    ((buildHeaders env cfg).filter (levelIs LogLevel.info)).map LogEntry.message =
      headerMessages cfg := by
  simp [buildHeaders, addLog, mkEntry, levelIs, headerMessages]

lemma runTicks_info_messages (env : Nat → String × String) (warn : Nat → Bool)
    (cfg : BuildConfiguration) :
    ∀ (steps : List String) (n i : Nat),
    ((runTicks env warn cfg n i steps).filter (levelIs LogLevel.info)).map
      LogEntry.message = steps := by
  intro steps
  induction steps with
  | nil => intro n i; simp [runTicks, mkEntry, levelIs]
  | cons s rest ih =>
    intro n i
    cases hw : warn i with
    | true => simp [runTicks, hw, mkEntry, levelIs, ih]
    | false => simp [runTicks, hw, mkEntry, levelIs, ih]

lemma filter_success_buildHeaders (env : Nat → String × String)
    (cfg : BuildConfiguration) :
    (buildHeaders env cfg).filter (levelIs LogLevel.success) = [] := by
  simp [buildHeaders, addLog, mkEntry, levelIs]

lemma runTicks_success_messages (env : Nat → String × String)
    (warn : Nat → Bool) (cfg : BuildConfiguration) :
    ∀ (steps : List String) (n i : Nat),
    ((runTicks env warn cfg n i steps).filter (levelIs LogLevel.success)).map
      LogEntry.message = ["Build Successful!", outputMessage cfg] := by
  intro steps
  induction steps with
  | nil => intro n i; simp [runTicks, mkEntry, levelIs]
  | cons s rest ih =>
    intro n i
    cases hw : warn i with
    | true => simp [runTicks, hw, mkEntry, levelIs, ih]
    | false => simp [runTicks, hw, mkEntry, levelIs, ih]

lemma runTicks_ends_with_terminal (env : Nat → String × String)
    (warn : Nat → Bool) (cfg : BuildConfiguration) :
    ∀ (steps : List String) (n i : Nat), ∃ (pre : List LogEntry) (m : Nat),
    runTicks env warn cfg n i steps =
      pre ++ [mkEntry env m LogLevel.success "Build Successful!",
              mkEntry env (m + 1) LogLevel.success (outputMessage cfg)] := by
  intro steps
  induction steps with
  | nil => intro n i; exact ⟨[], n, rfl⟩
  | cons s rest ih =>
    intro n i
    cases hw : warn i with
    | true =>
      obtain ⟨pre, m, hm⟩ := ih (n + 2) (i + 1)
      exact ⟨mkEntry env n LogLevel.warn cleartextWarning ::
             mkEntry env (n + 1) LogLevel.info s :: pre, m, by
        simp [runTicks, hw, hm]⟩
    | false =>
      obtain ⟨pre, m, hm⟩ := ih (n + 1) (i + 1)
      exact ⟨mkEntry env n LogLevel.info s :: pre, m, by simp [runTicks, hw, hm]⟩

lemma replaceWsRunsAux_id_of_no_ws :
    ∀ (l : List Char), (∀ c ∈ l, isJsWhitespace c = false) →
    replaceWsRunsAux false l = l := by
  intro l
  induction l with
  | nil => intro _; rfl
  | cons c rest ih =>
    intro h
    have hc : isJsWhitespace c = false := h c (List.mem_cons_self c rest)
    have hr := ih fun d hd => h d (List.mem_cons_of_mem c hd)
    simp [replaceWsRunsAux, hc, hr]

/-! ## Claim theorems -/

/-- C1: for every staged step list, every warning oracle and every
environment, the `info`-level entries of a completed run's Log Stream are
exactly the 3 header messages followed by the staged step list in its
original order; in particular, apart from the 3 header entries, there are
exactly L `info` entries and their messages equal the staged list in
order, however many warnings were interleaved. -/
theorem completed_run_info_entries (env : Nat → String × String)
    (warn : Nat → Bool) (cfg : BuildConfiguration) (steps : List String) :
    ((buildRun env warn cfg steps).filter (levelIs LogLevel.info)).map
      LogEntry.message = headerMessages cfg ++ steps ∧
    (((buildRun env warn cfg steps).filter (levelIs LogLevel.info)).map
      LogEntry.message).drop 3 = steps := by
  have h1 : ((buildRun env warn cfg steps).filter (levelIs LogLevel.info)).map
      LogEntry.message = headerMessages cfg ++ steps := by
    simp [buildRun, List.filter_append, filter_info_buildHeaders,
      runTicks_info_messages]
  refine ⟨h1, ?_⟩
  rw [h1]
  simp [headerMessages]

/-- C2 (code evaluation at the failing schedule): starting a second build
run does not clear the first run's interval, so the first run's next tick
appends its staged step after the second run's header entries; run 1's
message "run1 step B" is the last entry of the stream whose first three
entries belong to run 2. -/
theorem stale_interval_interleaves_runs :
    (execEvents env0 { logs := [], runs := [] } interleavingSchedule).logs.map
      LogEntry.message =
      ["Starting build pipeline for com.example.two...",
       "Wrapper: Trusted Web Activity (Recommended)",
       "Target SDK: 34",
       "run1 step B"] ∧
    "run1 step B" ∈ run1Steps := by
  constructor
  · rfl
  · decide

/-- C3 counterexample: the fallback the source returns on adapter error is
not the object the claim states — its `permissions` entry is
`android.permission.INTERNET`, not `INTERNET`. -/
theorem analyze_fallback_differs_from_claim :
    analyzeWebInput (Except.error "network failure") (fun t => Except.error t) ≠
      claimedFallbackAnalysis ∧
    analyzeWebInput (Except.error "network failure") (fun t => Except.error t) =
      fallbackAnalysis := by
  constructor
  · decide
  · rfl

/-- C3 (amended): on any adapter rejection, absent text, empty text, or
parse failure, `analyzeWebInput` returns exactly `fallbackAnalysis`
(whose permissions list is `["android.permission.INTERNET"]`) — never a
partial or null result, never a propagated error. -/
theorem analyzeWebInput_fails_open (err : String)
    (parse : String → Except String AnalysisResult) (t : String) :
    analyzeWebInput (Except.error err) parse = fallbackAnalysis ∧
    analyzeWebInput (Except.ok none) parse = fallbackAnalysis ∧
    analyzeWebInput (Except.ok (some "")) parse = fallbackAnalysis ∧
    ((∃ e, parse t = Except.error e) →
      analyzeWebInput (Except.ok (some t)) parse = fallbackAnalysis) := by
  refine ⟨rfl, rfl, by simp [analyzeWebInput], ?_⟩
  rintro ⟨e, he⟩
  by_cases ht : t = ""
  · simp [analyzeWebInput, ht]
  · simp [analyzeWebInput, ht, he]

/-- C3 witness: a resolved call whose body fails to parse yields the
fallback. -/
theorem analyzeWebInput_fails_open_witness :
    analyzeWebInput (Except.ok (some "not json")) (fun t => Except.error t) =
      fallbackAnalysis :=
  (analyzeWebInput_fails_open "boom" (fun t => Except.error t) "not json").2.2.2
    ⟨"not json", rfl⟩

/-- C4 counterexample: the source only replaces whitespace runs, so the
symbol `!` — not alphanumeric, space, dot, dash or underscore — survives
in the derived filename component, while the claim's rule would replace
it with an underscore. -/
theorem sanitize_keeps_symbols :
    sanitizeAppName "a!b" = "a!b" ∧
    claimedSanitize "a!b" = "a_b" ∧
    sanitizeAppName "a!b" ≠ claimedSanitize "a!b" := by
  refine ⟨rfl, rfl, by decide⟩

/-- C4 (amended): the filename component is derived by replacing every
maximal run of whitespace with a single underscore, leaving all other
characters (symbols included) unchanged; in particular "My Cool App"
yields "My_Cool_App" and "Foo" yields "Foo". -/
theorem sanitize_amended :
    sanitizeAppName "My Cool App" = "My_Cool_App" ∧
    sanitizeAppName "Foo" = "Foo" ∧
    sanitizeAppName "a  b" = "a_b" ∧
    ∀ (l : List Char), (∀ c ∈ l, isJsWhitespace c = false) →
      replaceWsRunsAux false l = l :=
  ⟨rfl, rfl, rfl, replaceWsRunsAux_id_of_no_ws⟩

/-- C4 witness: a whitespace-free name passes through unchanged. -/
theorem sanitize_amended_witness :
    replaceWsRunsAux false ['F', 'o', 'o'] = ['F', 'o', 'o'] :=
  sanitize_amended.2.2.2 ['F', 'o', 'o'] (by decide)

/-- C5 (code evaluation at the failing input): with the callback-captured
log list empty (its value after analysis cleared the stream), a completed
run requests the build report from that stale snapshot — the request is
the empty string — while the trailing window of the run's final Log
Stream is the joined messages of the actual run. -/
theorem report_request_from_stale_snapshot :
    (startBuild env0 warnNever cfg0 ["run step"] []).reportRequest = "" ∧
    logSnippet (((startBuild env0 warnNever cfg0 ["run step"] []).finalLogs).map
      LogEntry.message) =
      "Starting build pipeline for com.example.app...\nWrapper: Trusted Web Activity (Recommended)\nTarget SDK: 34\nrun step\nBuild Successful!\nOutput: dist/My_App-release.apk" ∧
    (startBuild env0 warnNever cfg0 ["run step"] []).reportRequest ≠
      logSnippet (((startBuild env0 warnNever cfg0 ["run step"] []).finalLogs).map
        LogEntry.message) := by
  refine ⟨rfl, rfl, by decide⟩

/-- C6 counterexample: the analysis action (`handleAnalysis`) empties a
nonempty Log Stream in bulk even though it does not start a build run. -/
theorem analyze_clears_log_stream :
    (applyEvent env0 exampleState Event.analyze).logs = [] ∧
    exampleState.logs ≠ [] := by
  refine ⟨rfl, by decide⟩

/-- C6 (amended): every operation on the Log Stream either appends —
leaving every existing entry in place, unmutated — or resets the stream
to a state independent of its previous contents, and the resetting
operations are exactly the start of a build run and the start of an
analysis. -/
theorem log_stream_append_only (env : Nat → String × String) (s : AppState)
    (e : Event) :
    (∃ t, (applyEvent env s e).logs = s.logs ++ t) ∨
    ((applyEvent env s e).logs = (applyEvent env { s with logs := [] } e).logs ∧
      (e = Event.analyze ∨ ∃ cfg steps, e = Event.startRun cfg steps)) := by
  cases e with
  | analyze => exact Or.inr ⟨rfl, Or.inl rfl⟩
  | startRun cfg steps => exact Or.inr ⟨rfl, Or.inr ⟨cfg, steps, rfl⟩⟩
  | tick rid w =>
    left
    cases hget : s.runs[rid]? with
    | none => exact ⟨[], by simp [applyEvent, hget]⟩
    | some r =>
      cases hact : r.active with
      | false => exact ⟨[], by simp [applyEvent, hget, hact]⟩
      | true =>
        by_cases hlen : r.steps.length ≤ r.i
        · exact ⟨[mkEntry env s.logs.length LogLevel.success "Build Successful!",
            mkEntry env (s.logs.length + 1) LogLevel.success (outputMessage r.cfg)],
            by simp [applyEvent, hget, hact, hlen]⟩
        · cases w with
          | false =>
            exact ⟨[mkEntry env s.logs.length LogLevel.info (r.steps[r.i]?.getD "")],
              by simp [applyEvent, hget, hact, hlen]⟩
          | true =>
            exact ⟨[mkEntry env s.logs.length LogLevel.warn cleartextWarning,
              mkEntry env (s.logs.length + 1) LogLevel.info (r.steps[r.i]?.getD "")],
              by simp [applyEvent, hget, hact, hlen]⟩

/-- C7: the report generator returns the generic failure fallback exactly
when the adapter call rejects, and the distinct report-unavailable
fallback when the call resolves with absent or empty text. -/
theorem generateBuildReport_fallback_strings (err : String) :
    generateBuildReport (Except.error err) =
      "Build completed. See raw logs for details." ∧
    generateBuildReport (Except.ok none) =
      "Build completed successfully (Report unavailable)." ∧
    generateBuildReport (Except.ok (some "")) =
      "Build completed successfully (Report unavailable)." ∧
    "Build completed. See raw logs for details." ≠
      "Build completed successfully (Report unavailable)." := by
  refine ⟨rfl, rfl, by simp [generateBuildReport], by decide⟩

/-- C8: in every completed run the `success`-level entries are exactly the
success notice followed by the derived output-path notice; they are the
last two entries of the stream; and a tick of an already-cleared interval
changes nothing (no further ticks take effect after completion). -/
theorem terminal_success_sequence (env : Nat → String × String)
    (warn : Nat → Bool) (cfg : BuildConfiguration) (steps : List String) :
    ((buildRun env warn cfg steps).filter (levelIs LogLevel.success)).map
      LogEntry.message = ["Build Successful!", outputMessage cfg] ∧
    ((buildRun env warn cfg steps).drop
        ((buildRun env warn cfg steps).length - 2)).map
      (fun e => (e.level, e.message)) =
      [(LogLevel.success, "Build Successful!"),
       (LogLevel.success, outputMessage cfg)] ∧
    ∀ (env2 : Nat → String × String) (s : AppState) (rid : Nat) (w : Bool)
      (r : RunState), s.runs[rid]? = some r → r.active = false →
      applyEvent env2 s (Event.tick rid w) = s := by
  refine ⟨?_, ?_, ?_⟩
  · simp [buildRun, List.filter_append, filter_success_buildHeaders,
      runTicks_success_messages]
  · obtain ⟨pre, m, hm⟩ := runTicks_ends_with_terminal env warn cfg steps 3 0
    have hb : buildRun env warn cfg steps =
        (buildHeaders env cfg ++ pre) ++
          [mkEntry env m LogLevel.success "Build Successful!",
           mkEntry env (m + 1) LogLevel.success (outputMessage cfg)] := by
      rw [buildRun, hm, List.append_assoc]
    rw [hb]
    have hlen : ((buildHeaders env cfg ++ pre) ++
        [mkEntry env m LogLevel.success "Build Successful!",
         mkEntry env (m + 1) LogLevel.success (outputMessage cfg)]).length - 2 =
        (buildHeaders env cfg ++ pre).length := by
      simp only [List.length_append, List.length_cons, List.length_nil]
      omega
    rw [hlen, List.drop_left]
    simp [mkEntry]
  · intro env2 s rid w r hget hact
    simp [applyEvent, hget, hact]

/-- C8 witness: a tick aimed at a completed (cleared) run is a no-op. -/
theorem terminal_success_sequence_witness :
    applyEvent env0 idleState (Event.tick 0 false) = idleState :=
  (terminal_success_sequence env0 warnNever cfg0 []).2.2 env0 idleState 0 false
    { cfg := cfg0, steps := [], i := 0, active := false } rfl rfl

/-- C9: the workflow step transition function realises exactly the four
specified transitions — Source to Configuration on analysis resolution,
Configuration to Source on back, Configuration to BuildOutput on start
build, BuildOutput to Configuration on configure while not building — and
every other (step, action, building) combination leaves the step
unchanged. -/
theorem workflow_transition_table :
    (∀ b, workflowTransition WorkflowStep.source WAction.analysisResolved b =
      WorkflowStep.configuration) ∧
    (∀ b, workflowTransition WorkflowStep.configuration WAction.back b =
      WorkflowStep.source) ∧
    (∀ b, workflowTransition WorkflowStep.configuration WAction.startBuildAction b =
      WorkflowStep.buildOutput) ∧
    workflowTransition WorkflowStep.buildOutput WAction.configure false =
      WorkflowStep.configuration ∧
    ∀ s a b,
      (s = WorkflowStep.source ∧ a = WAction.analysisResolved) ∨
      (s = WorkflowStep.configuration ∧ a = WAction.back) ∨
      (s = WorkflowStep.configuration ∧ a = WAction.startBuildAction) ∨
      (s = WorkflowStep.buildOutput ∧ a = WAction.configure ∧ b = false) ∨
      workflowTransition s a b = s := by
  refine ⟨fun b => by cases b <;> rfl, fun b => by cases b <;> rfl,
    fun b => by cases b <;> rfl, rfl, ?_⟩
  intro s a b
  cases s <;> cases a <;> cases b <;> decide

/-- C10: the first three entries of every build run — target identifier,
wrapper strategy, target SDK — are at level `info`, and the `addLog`
helper called without a level always appends an `info` entry (the default
of its level parameter). -/
theorem header_entries_are_info (env : Nat → String × String)
    (warn : Nat → Bool) (cfg : BuildConfiguration) (steps : List String) :
    ((buildRun env warn cfg steps).take 3).map (fun e => (e.level, e.message)) =
      (headerMessages cfg).map (fun m => (LogLevel.info, m)) ∧
    ∀ (env2 : Nat → String × String) (n : Nat) (logs : List LogEntry)
      (m : String),
      (addLog env2 n logs m).map LogEntry.level =
        logs.map LogEntry.level ++ [LogLevel.info] := by
  constructor
  · simp [buildRun, buildHeaders, addLog, mkEntry, headerMessages]
  · intro env2 n logs m
    simp [addLog, mkEntry]

end WebApk
